import Mathlib

/-!
Shallow embedding of the Memory Context Manager of
`src/agentcore-pydantic-ai/memory.py` (classes `MemoryConfig` and
`MemoryManager`, helpers `retrieve_memories_for_actor` and
`format_memory_context`), together with theorems settling the frozen
claims about it.

Conventions of the embedding:
* Python strings are Lean `String`s; a Python `or`-default on a possibly
  omitted argument is `pyOrDefault` below (`None` and `""` both fall back,
  as Python truthiness dictates).
* Calls into the external `MemoryClient` are modelled by oracle arguments:
  the value the client would return (or `Option.none` / a `Bool` flag when
  the call can raise) is passed in, and the writes the manager performs are
  returned as explicit records, so that theorems can speak about which
  store writes happen and with which payloads.
* Python dicts with string keys/values are association lists
  `List (String × String)` (duplicate-free in every use below).
-/

namespace AgentCoreMemory

/-- Python truthiness default for `x = x or dflt` on an optional string
argument: `None` and the empty string both fall back to the default. -/
def pyOrDefault (x : Option String) (dflt : String) : String :=
  match x with
  | none => dflt
  | some s => if s = "" then dflt else s

/-! ## Message Normalizer: `MemoryManager._convert_messages_for_storage`

Input messages are duck-typed in Python; the shapes the code probes are
modelled as an inductive.  A part of a Pydantic-AI message may or may not
carry a `content` attribute and a `part_kind` attribute; non-string content
is serialized with `json.dumps`, which we model by carrying the serialized
form in the `PartContent.nonStr` constructor (the serializer is external
stdlib code). -/

/-- The `content` attribute of a message part: either a Python string, or a
non-string value whose `json.dumps` serialization is `serialized`. -/
inductive PartContent
  | str (s : String)
  | nonStr (serialized : String)
deriving DecidableEq, Repr

/-- `json.dumps(content) if not isinstance(content, str) else content`. -/
def PartContent.stored : PartContent → String
  | .str s => s
  | .nonStr j => j

/-- One element of `msg.parts`.  `has_content`/`has_part_kind` model
`hasattr(part, 'content')` / `hasattr(part, 'part_kind')`. -/
structure Part where
  has_content : Bool
  content : PartContent
  has_part_kind : Bool
  part_kind : String
deriving DecidableEq, Repr

/-- A raw framework message, by the shapes
`_convert_messages_for_storage` dispatches on:
* `structuredMsg`: an object with a `parts` attribute; `has_kind` models
  `hasattr(msg, 'kind')`, `kind` its value, and `nameHasResponse` the test
  `'Response' in type(msg).__name__`;
* `strMsg`: a plain Python string;
* `dictMsg`: a dict, with its optional `content` and `role` entries and its
  `str(msg)` representation used as the content default;
* `tupleMsg`: an already-normalized `(text, role)` tuple — it has no
  `parts` attribute and is neither a `str` nor a `dict`, so no branch of
  the converter matches it;
* `otherMsg`: any other unclassifiable object. -/
inductive RawMessage
  | structuredMsg (parts : List Part) (has_kind : Bool) (kind : String)
      (nameHasResponse : Bool)
  | strMsg (s : String)
  | dictMsg (content : Option String) (role : Option String) (reprStr : String)
  | tupleMsg (text : String) (role : String)
  | otherMsg
deriving DecidableEq, Repr

/-- Role resolution for one part of a structured message
(lines 455–468 of `memory.py`). -/
def resolvePartRole (has_kind : Bool) (kind : String) (nameHasResponse : Bool)
    (p : Part) : String :=
  if has_kind then
    if kind = "request" then
      if p.has_part_kind && p.part_kind = "user-prompt" then "USER"
      else if p.has_part_kind && p.part_kind = "system-prompt" then "SYSTEM"
      else "USER"
    else if kind = "response" then "ASSISTANT"
    else "ASSISTANT"
  else
    if nameHasResponse then "ASSISTANT" else "USER"

/-- Conversion of a single raw message to zero or more `(text, role)`
pairs.  A structured message contributes one pair per part that has a
`content` attribute (and only when `msg.parts` is truthy, i.e. nonempty);
a string becomes `(s, USER)`; a dict passes `content`/`role` through with
defaults `str(msg)` / `USER`; tuples and other objects match no branch and
contribute nothing. -/
def convertOneMessage : RawMessage → List (String × String)
  | .structuredMsg parts has_kind kind nameHasResponse =>
      if parts = [] then []
      else
        parts.filterMap fun p =>
          if p.has_content then
            some (p.content.stored, resolvePartRole has_kind kind nameHasResponse p)
          else none
  | .strMsg s => [(s, "USER")]
  | .dictMsg content role reprStr =>
      [(content.getD reprStr, role.getD "USER")]
  | .tupleMsg _ _ => []
  | .otherMsg => []

/-- `MemoryManager._convert_messages_for_storage`: convert each message in
order and concatenate the results. -/
def convert_messages_for_storage (messages : List RawMessage) :
    List (String × String) :=
  messages.flatMap convertOneMessage

/-- Re-inject a normalized `(text, role)` pair into the raw-message type, as
the Python tuple it is at runtime. -/
def pairAsRawMessage (p : String × String) : RawMessage :=
  RawMessage.tupleMsg p.1 p.2

/-! ## Retrieved memories and `format_memory_context` -/

/-- A retrieved memory record.  `content` models `memory.get("content", "")`
(a missing key is the empty string); `metadata` models
`memory.get("metadata", {})` as an association list. -/
structure Memory where
  content : String
  metadata : List (String × String)
deriving DecidableEq, Repr

/-- One formatted entry `"{i}. {content}"`, with the
`" (Metadata: k: v, ...)"` suffix exactly when the metadata dict is
truthy (nonempty). -/
def formatMemoryEntry (i : Nat) (m : Memory) : String :=
  let base := toString i ++ ". " ++ m.content
  if m.metadata = [] then base
  else
    base ++ " (Metadata: " ++
      String.intercalate ", " (m.metadata.map fun kv => kv.1 ++ ": " ++ kv.2) ++
      ")"

/-- The numbered entries of `format_memory_context`, starting at index 1. -/
def formatMemoryEntries : Nat → List Memory → List String
  | _, [] => []
  | i, m :: ms => formatMemoryEntry i m :: formatMemoryEntries (i + 1) ms

/-- `format_memory_context` (lines 124–152): the empty list formats to the
sentinel `"No relevant memories found."`, otherwise entries are numbered
from 1 and joined with newlines. -/
def format_memory_context (memories : List Memory) : String :=
  if memories = [] then "No relevant memories found."
  else String.intercalate "\n" (formatMemoryEntries 1 memories)

/-! ## Conversation history: `MemoryManager._load_conversation_context` -/

/-- One message of a stored conversation turn.  `role` and `content` are
the dict entries the code reads; `parsedRepr` models the external call
`str(json.loads(content))` for a `content` that starts with `"{"`:
`some r` is the Python `str` of the parsed value, `none` models a
`json.JSONDecodeError` (in which case the raw content is kept). -/
structure TurnMessage where
  role : String
  content : String
  parsedRepr : Option String
deriving DecidableEq, Repr

/-- A turn as returned by `get_last_k_turns`: an ordered list of messages. -/
def Turn := List TurnMessage
deriving DecidableEq, Repr

/-- The content actually rendered for a turn message: contents that start
with `"{"` are replaced by the `str` of their JSON parse when it succeeds
(lines 427–432). -/
def renderedTurnContent (m : TurnMessage) : String :=
  if m.content.startsWith "\x7b" then
    match m.parsedRepr with
    | some r => r
    | none => m.content
  else m.content

/-- The `"{role}: {content}"` line appended for one turn message. -/
def turnMessageLine (m : TurnMessage) : String :=
  m.role ++ ": " ++ renderedTurnContent m

/-- The `context_messages` list built by `_load_conversation_context`: turns
are walked in `reversed(conversations)` order, each turn's messages in their
given order. -/
def conversationContextLines (conversations : List Turn) : List String :=
  conversations.reverse.flatMap fun turn => turn.map turnMessageLine

/-- `MemoryManager._load_conversation_context` (lines 401–441), with the
`get_last_k_turns` answer passed as an oracle: `none` models the client
call raising (caught, returns `""`); a falsy (empty) turn list also yields
`""`; otherwise the lines are joined with newlines. -/
def load_conversation_context (conversations : Option (List Turn)) : String :=
  match conversations with
  | none => ""
  | some convs =>
      if convs = [] then ""
      else String.intercalate "\n" (conversationContextLines convs)

/-! ## `MemoryManager.get_memory_context` and the session tracker -/

/-- The mutable state of a `MemoryManager`: the keys of
`_initialized_sessions` that have been set to `True` (entries are only ever
set to `True`, so the dict is a set of keys). -/
structure MMState where
  primedSessions : List String
deriving DecidableEq, Repr

/-- The session key `f"{actor_id}:{session_id}"`. -/
def sessionKey (actor_id session_id : String) : String :=
  actor_id ++ ":" ++ session_id

/-- Result of one `get_memory_context` call: the returned context string,
the manager state afterwards, and whether the store's recent-turns read
(`get_last_k_turns`) was invoked during the call. -/
structure GetContextResult where
  output : String
  state : MMState
  historyFetched : Bool
deriving DecidableEq, Repr

/-- `MemoryManager.get_memory_context` (lines 197–251).
`dflt_actor`/`dflt_session` are the manager's defaults; `conversations` is
the oracle answer of `get_last_k_turns` (consulted only if the call
happens) and `relevant` the answer of `retrieve_memories` (the helper
`retrieve_memories_for_actor` catches every client error and returns `[]`,
so a plain list models it). -/
def get_memory_context (dflt_actor dflt_session : String) (st : MMState)
    (user_input : String) (actor_arg session_arg : Option String)
    (load_conv_flag retrieve_flag : Bool)
    (conversations : Option (List Turn)) (relevant : List Memory) :
    GetContextResult :=
  let actor_id := pyOrDefault actor_arg dflt_actor
  let session_id := pyOrDefault session_arg dflt_session
  let key := sessionKey actor_id session_id
  let fetch := load_conv_flag && !(st.primedSessions.contains key)
  let convPart : List String :=
    if fetch then
      let cc := load_conversation_context conversations
      if cc ≠ "" then ["Recent conversation:\n" ++ cc] else []
    else []
  let st' := if fetch then MMState.mk (key :: st.primedSessions) else st
  let parts :=
    if retrieve_flag && user_input ≠ "" then
      if relevant ≠ [] then
        convPart ++
          ["Relevant long-term memory context:\n" ++ format_memory_context relevant]
      else convPart
    else convPart
  { output := if parts = [] then "" else String.intercalate "\n\n" parts
    state := st'
    historyFetched := fetch }

/-! ## Conversation Writer: the three store paths -/

/-- One `create_event` call issued to the memory client. -/
structure StoreEvent where
  memory_id : String
  actor_id : String
  session_id : String
  messages : List (String × String)
deriving DecidableEq, Repr

/-- `MemoryManager.store_conversation` (lines 253–301).  `create_event_ok`
models whether the client write raises; the returned list holds the events
successfully written. -/
def store_conversation (memory_id dflt_actor dflt_session : String)
    (user_input response : String) (actor_arg session_arg : Option String)
    (create_event_ok : Bool) : Bool × List StoreEvent :=
  if user_input = "" || response = "" then (false, [])
  else
    let actor_id := pyOrDefault actor_arg dflt_actor
    let session_id := pyOrDefault session_arg dflt_session
    if create_event_ok then
      (true, [{ memory_id := memory_id, actor_id := actor_id,
                session_id := session_id,
                messages := [(user_input, "USER"), (response, "ASSISTANT")] }])
    else (false, [])

/-- `MemoryManager.store_new_messages` (lines 356–399): empty input is a
no-op returning `true`; otherwise the normalizer runs, a nonempty result is
written as one event (returning `true` when the write succeeds), and an
empty result returns `false` with no write. -/
def store_new_messages (memory_id dflt_actor dflt_session : String)
    (new_messages : List RawMessage) (actor_arg session_arg : Option String)
    (create_event_ok : Bool) : Bool × List StoreEvent :=
  if new_messages = [] then (true, [])
  else
    let actor_id := pyOrDefault actor_arg dflt_actor
    let session_id := pyOrDefault session_arg dflt_session
    let messages_to_store := convert_messages_for_storage new_messages
    if messages_to_store ≠ [] then
      if create_event_ok then
        (true, [{ memory_id := memory_id, actor_id := actor_id,
                  session_id := session_id, messages := messages_to_store }])
      else (false, [])
    else (false, [])

/-- One record passed to `store_memories`. -/
structure FactRecord where
  content : String
  metadata : List (String × String)
deriving DecidableEq, Repr

/-- One `store_memories` call issued to the memory client (no session). -/
structure StoreMemoriesCall where
  memory_id : String
  namespace_str : String
  memories : List FactRecord
deriving DecidableEq, Repr

/-- The metadata dict `{"type": "semantic_fact", **(metadata or {})}`:
the `"type"` key comes first and is overridden by a caller-supplied
`"type"`, then the caller's remaining keys in order (Python dict-merge
semantics for a duplicate-free `metadata`). -/
def factMetadata (metadata : List (String × String)) : List (String × String) :=
  ("type", (metadata.lookup "type").getD "semantic_fact") ::
    metadata.filter fun kv => kv.1 ≠ "type"

/-- `MemoryManager.store_facts` (lines 303–354): an empty fact list returns
`true` with no write; otherwise one record per fact is written by a single
`store_memories` call into namespace `/actor/{actor_id}/` (the session id
is only logged, never sent).  `store_ok` models whether the client call
raises. -/
def store_facts (memory_id dflt_actor dflt_session : String)
    (facts : List String) (actor_arg session_arg : Option String)
    (metadata : List (String × String)) (store_ok : Bool) :
    Bool × List StoreMemoriesCall :=
  if facts = [] then (true, [])
  else
    let actor_id := pyOrDefault actor_arg dflt_actor
    let ns := "/actor/" ++ actor_id ++ "/"
    let mems := facts.map fun fact => FactRecord.mk fact (factMetadata metadata)
    if store_ok then
      (true, [{ memory_id := memory_id, namespace_str := ns, memories := mems }])
    else (false, [])

/-! ## Configuration Loader: `MemoryConfig` -/

/-- The parsed JSON config object, modelled as a string-valued association
list (the only field the code reads is the string `memory_id`). -/
def ConfigObj := List (String × String)
deriving DecidableEq, Repr

/-- The class-level cache `MemoryConfig._cached_config` /
`MemoryConfig._cached_path`. -/
structure ConfigCache where
  cached_config : Option ConfigObj
  cached_path : Option String
deriving DecidableEq, Repr

/-- The empty cache at process start. -/
def ConfigCache.empty : ConfigCache := ⟨none, none⟩

/-- The error raised by `_load_config`: only a missing file raises here
(`FileNotFoundError`); the config's fields are not validated at load time. -/
inductive ConfigLoadError
  | fileNotFound (path : String)
deriving DecidableEq, Repr

/-- `MemoryConfig._load_config` (lines 59–82), with the filesystem as an
oracle `fs : path → Option ConfigObj` (`none` = the path does not exist).
Returns the cache afterwards and whether the file was actually read.
A populated cache for the same path short-circuits without touching the
filesystem. -/
def load_config (fs : String → Option ConfigObj) (cache : ConfigCache)
    (config_path : String) : Except ConfigLoadError (ConfigCache × Bool) :=
  if cache.cached_config.isSome && cache.cached_path = some config_path then
    Except.ok (cache, false)
  else
    match fs config_path with
    | none => Except.error (ConfigLoadError.fileNotFound config_path)
    | some cfg => Except.ok (⟨some cfg, some config_path⟩, true)

/-- The error surfaced by the `memory_id` property:
`MemoryConfig._cached_config["memory_id"]` raises a `KeyError` when the key
is absent (and a `TypeError` when the cache is still `None`). -/
inductive MemoryIdError
  | keyError
  | noneCache
deriving DecidableEq, Repr

/-- The `MemoryConfig.memory_id` property (lines 84–87): a plain key access
on the cached config, with no default. -/
def config_memory_id (cache : ConfigCache) : Except MemoryIdError String :=
  match cache.cached_config with
  | none => Except.error MemoryIdError.noneCache
  | some cfg =>
      match cfg.lookup "memory_id" with
      | some v => Except.ok v
      | none => Except.error MemoryIdError.keyError

/-! ## Theorems -/

/-- C8: an empty relevance-query result formats to the single sentinel line
`"No relevant memories found."` — an ordinary string result of the
formatter, not an error value. -/
theorem format_empty_sentinel :
    format_memory_context [] = "No relevant memories found." := rfl

/-- C5: with config `{"memory_id": "mem-1"}`, calling
`get_memory_context("apples?", "u1", "s1")` on a fresh manager when the
store has no conversation history and exactly one relevant memory
`{content: "I like apples", metadata: {}}` returns exactly
`"Relevant long-term memory context:\n1. I like apples"` — no conversation
block and no metadata suffix. -/
theorem get_context_scenario_relevant_only :
    config_memory_id ⟨some [("memory_id", "mem-1")], some "memory-config.json"⟩
        = Except.ok "mem-1" ∧
    (get_memory_context "default-user" "default-session" ⟨[]⟩
        "apples?" (some "u1") (some "s1") true true
        (some []) [⟨"I like apples", []⟩]).output
      = "Relevant long-term memory context:\n1. I like apples" := by
  constructor
  · rfl
  · decide

/-- C3 (counterexample): feeding the normalizer's own output back into
`store_new_messages` does not persist it.  For `rawBatch = ["hi"]` the
normalizer produces the single pair `("hi", "USER")`, but
`storeMessages(normalize(rawBatch))` — whose input elements are then plain
`(text, role)` tuples, matching no branch of the converter — returns
`false` and writes no event at all (0 pairs persisted, not 1). -/
theorem storeMessages_of_normalized_counterexample :
    convert_messages_for_storage [RawMessage.strMsg "hi"] = [("hi", "USER")] ∧
    store_new_messages "mem-1" "default-user" "default-session"
        ((convert_messages_for_storage [RawMessage.strMsg "hi"]).map pairAsRawMessage)
        (some "u1") (some "s1") true
      = (false, []) := by
  constructor
  · rfl
  · rfl

/-- C3 (amended): `store_new_messages` itself runs the normalizer on its
raw input and, whenever the normalized batch is nonempty and the store
write succeeds, persists exactly that batch — same count and ordering of
`(text, role)` pairs — as its single store event; an empty raw input is a
no-op returning `true`.  (The literal composition
`storeMessages(normalize(rawBatch))` stores nothing, because normalized
tuples match no converter branch.) -/
theorem store_new_messages_persists_normalized
    (memory_id dflt_actor dflt_session : String) (msgs : List RawMessage)
    (actor_arg session_arg : Option String) :
    (msgs = [] →
      store_new_messages memory_id dflt_actor dflt_session msgs
          actor_arg session_arg true = (true, [])) ∧
    (convert_messages_for_storage msgs ≠ [] →
      store_new_messages memory_id dflt_actor dflt_session msgs
          actor_arg session_arg true
        = (true, [{ memory_id := memory_id,
                    actor_id := pyOrDefault actor_arg dflt_actor,
                    session_id := pyOrDefault session_arg dflt_session,
                    messages := convert_messages_for_storage msgs }])) := by
  constructor
  · intro h
    simp [store_new_messages, h]
  · intro h
    have hne : msgs ≠ [] := by
      intro hmsgs
      apply h
      simp [hmsgs, convert_messages_for_storage]
    simp [store_new_messages, hne, h]

/-- C3 (witness for the amended theorem). -/
theorem store_new_messages_persists_normalized_witness :
    store_new_messages "mem-1" "default-user" "default-session"
        [RawMessage.strMsg "hi"] (some "u1") (some "s1") true
      = (true, [{ memory_id := "mem-1", actor_id := "u1", session_id := "s1",
                  messages := [("hi", "USER")] }]) := by
  have h := (store_new_messages_persists_normalized "mem-1" "default-user"
    "default-session" [RawMessage.strMsg "hi"] (some "u1") (some "s1")).2
    (by decide)
  simpa using h

/-- C7 (counterexample): the dict branch of the converter passes an
explicit `role` field through verbatim, so the batch
`[{"content": "x", "role": "OTHER"}]` produces the pair `("x", "OTHER")`,
whose role is none of `USER`, `ASSISTANT`, `SYSTEM`. -/
theorem convert_role_counterexample :
    convert_messages_for_storage
        [RawMessage.dictMsg (some "x") (some "OTHER") "repr"]
      = [("x", "OTHER")] ∧
    ¬("OTHER" = "USER" ∨ "OTHER" = "ASSISTANT" ∨ "OTHER" = "SYSTEM") := by
  constructor
  · rfl
  · decide

/-- `resolvePartRole` only ever yields one of the three canonical roles. -/
theorem resolvePartRole_cases (has_kind : Bool) (kind : String)
    (nameHasResponse : Bool) (p : Part) :
    resolvePartRole has_kind kind nameHasResponse p = "USER" ∨
    resolvePartRole has_kind kind nameHasResponse p = "ASSISTANT" ∨
    resolvePartRole has_kind kind nameHasResponse p = "SYSTEM" := by
  unfold resolvePartRole
  split_ifs <;> simp

/-- C7 (amended): every `(text, role)` pair the converter produces has role
`USER`, `ASSISTANT` or `SYSTEM`, unless the originating element was a dict
with an explicit `role` entry, in which case that entry is passed through
verbatim (it may be empty or arbitrary). -/
theorem convert_role_classified (msgs : List RawMessage) (p : String × String)
    (hp : p ∈ convert_messages_for_storage msgs) :
    (p.2 = "USER" ∨ p.2 = "ASSISTANT" ∨ p.2 = "SYSTEM") ∨
    (∃ c reprStr, RawMessage.dictMsg c (some p.2) reprStr ∈ msgs) := by
  rw [convert_messages_for_storage, List.mem_flatMap] at hp
  obtain ⟨msg, hmsg, hpm⟩ := hp
  cases msg with
  | structuredMsg parts has_kind kind nameHasResponse =>
      left
      rw [convertOneMessage] at hpm
      split at hpm
      · simp at hpm
      · rw [List.mem_filterMap] at hpm
        obtain ⟨part, _, hconv⟩ := hpm
        split at hconv
        · have := resolvePartRole_cases has_kind kind nameHasResponse part
          cases hconv
          simpa using this
        · simp at hconv
  | strMsg s =>
      left
      rw [convertOneMessage] at hpm
      simp at hpm
      simp [hpm]
  | dictMsg content role reprStr =>
      rw [convertOneMessage] at hpm
      simp at hpm
      cases role with
      | none =>
          left
          simp [hpm]
      | some r =>
          right
          refine ⟨content, reprStr, ?_⟩
          have : p.2 = r := by simp [hpm]
          rw [this]
          exact hmsg
  | tupleMsg t r =>
      rw [convertOneMessage] at hpm
      simp at hpm
  | otherMsg =>
      rw [convertOneMessage] at hpm
      simp at hpm

/-- C7 (witness for the amended theorem). -/
theorem convert_role_classified_witness :
    ("hi", "USER") ∈ convert_messages_for_storage [RawMessage.strMsg "hi"] ∧
    (((("hi", "USER") : String × String).2 = "USER" ∨
      (("hi", "USER") : String × String).2 = "ASSISTANT" ∨
      (("hi", "USER") : String × String).2 = "SYSTEM") ∨
    (∃ c reprStr,
      RawMessage.dictMsg c (some (("hi", "USER") : String × String).2) reprStr
        ∈ [RawMessage.strMsg "hi"])) := by
  refine ⟨by decide, ?_⟩
  exact convert_role_classified [RawMessage.strMsg "hi"] ("hi", "USER") (by decide)

/-- C2: `store_conversation` returns `false` and performs no store write
whenever `user_input` or `response` is empty; otherwise it writes exactly
the two canonical messages `(user_input, USER)` then
`(response, ASSISTANT)` as one event and returns `true` when the write
succeeds. -/
theorem store_conversation_spec (memory_id dflt_actor dflt_session : String)
    (user_input response : String) (actor_arg session_arg : Option String)
    (create_event_ok : Bool) :
    ((user_input = "" ∨ response = "") →
      store_conversation memory_id dflt_actor dflt_session user_input response
          actor_arg session_arg create_event_ok = (false, [])) ∧
    (user_input ≠ "" → response ≠ "" →
      store_conversation memory_id dflt_actor dflt_session user_input response
          actor_arg session_arg true
        = (true, [{ memory_id := memory_id,
                    actor_id := pyOrDefault actor_arg dflt_actor,
                    session_id := pyOrDefault session_arg dflt_session,
                    messages := [(user_input, "USER"),
                                 (response, "ASSISTANT")] }])) := by
  constructor
  · rintro (h | h) <;> simp [store_conversation, h]
  · intro hu hr
    simp [store_conversation, hu, hr]

/-- C2 (witness): both empty-side calls return `(false, [])`, and a
non-empty pair is stored as the two-message event. -/
theorem store_conversation_spec_witness :
    store_conversation "mem-1" "default-user" "default-session" "" "x"
        (some "u1") (some "s1") true = (false, []) ∧
    store_conversation "mem-1" "default-user" "default-session" "x" ""
        (some "u1") (some "s1") true = (false, []) ∧
    store_conversation "mem-1" "default-user" "default-session" "hi" "yo"
        (some "u1") (some "s1") true
      = (true, [{ memory_id := "mem-1", actor_id := "u1", session_id := "s1",
                  messages := [("hi", "USER"), ("yo", "ASSISTANT")] }]) := by
  refine ⟨?_, ?_, ?_⟩
  · exact (store_conversation_spec "mem-1" "default-user" "default-session"
      "" "x" (some "u1") (some "s1") true).1 (Or.inl rfl)
  · exact (store_conversation_spec "mem-1" "default-user" "default-session"
      "x" "" (some "u1") (some "s1") true).1 (Or.inr rfl)
  · have h := (store_conversation_spec "mem-1" "default-user" "default-session"
      "hi" "yo" (some "u1") (some "s1") true).2 (by decide) (by decide)
    simpa [pyOrDefault] using h

/-- Helper: a metadata dict with no `"type"` key survives the
`"type"`-removing filter of the merged fact metadata unchanged. -/
theorem filter_ne_type_of_lookup_none :
    ∀ md : List (String × String), md.lookup "type" = none →
      (md.filter fun kv => kv.1 ≠ "type") = md
  | [], _ => rfl
  | (k, v) :: tl, h => by
      rw [List.lookup] at h
      cases hbk : (("type" : String) == k) with
      | true =>
          rw [hbk] at h
          exact absurd h (by simp)
      | false =>
          rw [hbk] at h
          have h' : List.lookup "type" tl = none := h
          have hk : k ≠ "type" := by
            intro hkk
            subst hkk
            simp at hbk
          rw [List.filter_cons, if_pos (by simp [hk]),
            filter_ne_type_of_lookup_none tl h']

/-- C6: a nonempty fact list is written by one `store_memories` call into
the actor namespace `/actor/{actor_id}/`, with one record per fact, each
carrying the `type: semantic_fact` metadata merged with the caller's
metadata; the call is identical for every session id; and when the caller
metadata has no `type` key the merged metadata is exactly
`type: semantic_fact` followed by the caller's entries. -/
theorem store_facts_spec (memory_id dflt_actor dflt_session : String)
    (facts : List String) (actor_arg session_arg : Option String)
    (metadata : List (String × String)) :
    (facts ≠ [] →
      store_facts memory_id dflt_actor dflt_session facts actor_arg
          session_arg metadata true
        = (true,
            [{ memory_id := memory_id,
               namespace_str := "/actor/" ++ pyOrDefault actor_arg dflt_actor ++ "/",
               memories := facts.map fun fact =>
                 FactRecord.mk fact (factMetadata metadata) }])) ∧
    (∀ (session_arg' : Option String) (store_ok : Bool),
      store_facts memory_id dflt_actor dflt_session facts actor_arg
          session_arg metadata store_ok
        = store_facts memory_id dflt_actor dflt_session facts actor_arg
            session_arg' metadata store_ok) ∧
    (metadata.lookup "type" = none →
      factMetadata metadata = ("type", "semantic_fact") :: metadata) := by
  refine ⟨?_, ?_, ?_⟩
  · intro h
    simp [store_facts, h]
  · intro session_arg' store_ok
    rfl
  · intro h
    unfold factMetadata
    rw [h, filter_ne_type_of_lookup_none metadata h]
    rfl

/-- C6 (witness): `store_facts(["fact A","fact B"], "u1", "s1")` writes one
call with two `semantic_fact` records in namespace `/actor/u1/`. -/
theorem store_facts_spec_witness :
    store_facts "mem-1" "default-user" "default-session" ["fact A", "fact B"]
        (some "u1") (some "s1") [] true
      = (true, [{ memory_id := "mem-1", namespace_str := "/actor/u1/",
                  memories := [FactRecord.mk "fact A" [("type", "semantic_fact")],
                               FactRecord.mk "fact B" [("type", "semantic_fact")]] }]) := by
  have h := (store_facts_spec "mem-1" "default-user" "default-session"
    ["fact A", "fact B"] (some "u1") (some "s1") []).1 (by decide)
  simpa [pyOrDefault, factMetadata] using h

/-- C9 (counterexample): loading a config file that exists but lacks the
`memory_id` field succeeds — `_load_config` raises no malformed-config
error at load time — and the failure only surfaces later, as a `KeyError`
from the `memory_id` property access. -/
theorem load_config_missing_id_counterexample :
    load_config
        (fun p => if p = "memory-config.json" then some ([] : ConfigObj) else none)
        ConfigCache.empty "memory-config.json"
      = Except.ok (⟨some [], some "memory-config.json"⟩, true) ∧
    config_memory_id ⟨some [], some "memory-config.json"⟩
      = Except.error MemoryIdError.keyError := by
  constructor
  · rfl
  · rfl

/-- C9 (amended): the loader reads the file once and caches it — a call
with a populated cache for the same path returns the cached value without
touching the filesystem; a fresh load of a missing path fails with the
not-found error; a fresh load of an existing file always succeeds (storing
the parsed config and reporting a real read), and when the required
`memory_id` field is absent the malformed-config failure surfaces only at
the first `memory_id` access, not at load time. -/
theorem config_loader_spec (fs : String → Option ConfigObj)
    (cache : ConfigCache) (path : String) (cfg : ConfigObj) :
    (cache.cached_config.isSome = true → cache.cached_path = some path →
      load_config fs cache path = Except.ok (cache, false)) ∧
    (cache.cached_config.isSome = false → fs path = none →
      load_config fs cache path
        = Except.error (ConfigLoadError.fileNotFound path)) ∧
    (cache.cached_config.isSome = false → fs path = some cfg →
      load_config fs cache path = Except.ok (⟨some cfg, some path⟩, true) ∧
      (cfg.lookup "memory_id" = none →
        config_memory_id ⟨some cfg, some path⟩
          = Except.error MemoryIdError.keyError)) := by
  refine ⟨?_, ?_, ?_⟩
  · intro h1 h2
    simp [load_config, h1, h2]
  · intro h1 h2
    simp [load_config, h1, h2]
  · intro h1 h2
    refine ⟨by simp [load_config, h1, h2], ?_⟩
    intro h3
    simp [config_memory_id, h3]

/-- C9 (witness): a fresh load of an existing file with a `memory_id`
field succeeds and reads the file; the populated cache then short-circuits
a second load of the same path without a read. -/
theorem config_loader_spec_witness :
    load_config
        (fun p => if p = "memory-config.json"
                  then some [("memory_id", "mem-1")] else none)
        ConfigCache.empty "memory-config.json"
      = Except.ok (⟨some [("memory_id", "mem-1")], some "memory-config.json"⟩, true) ∧
    load_config
        (fun p => if p = "memory-config.json"
                  then some [("memory_id", "mem-1")] else none)
        ⟨some [("memory_id", "mem-1")], some "memory-config.json"⟩
        "memory-config.json"
      = Except.ok (⟨some [("memory_id", "mem-1")], some "memory-config.json"⟩, false) := by
  constructor
  · exact ((config_loader_spec _ ConfigCache.empty "memory-config.json"
      [("memory_id", "mem-1")]).2.2 (by decide) (by decide)).1
  · exact (config_loader_spec _
      ⟨some [("memory_id", "mem-1")], some "memory-config.json"⟩
      "memory-config.json" [("memory_id", "mem-1")]).1 (by decide) (by decide)

/-- C10: a nonempty raw batch in which no element is classifiable (the
normalizer yields no pairs) makes `store_new_messages` return `false` with
no store write — whereas an empty input batch returns `true` — so the
boolean alone cannot distinguish a failed write from an all-dropped
batch. -/
theorem store_new_messages_unclassifiable_false
    (memory_id dflt_actor dflt_session : String) (msgs : List RawMessage)
    (actor_arg session_arg : Option String) (create_event_ok : Bool) :
    (msgs ≠ [] → convert_messages_for_storage msgs = [] →
      store_new_messages memory_id dflt_actor dflt_session msgs
          actor_arg session_arg create_event_ok = (false, [])) ∧
    store_new_messages memory_id dflt_actor dflt_session []
        actor_arg session_arg create_event_ok = (true, []) := by
  constructor
  · intro h hc
    simp [store_new_messages, h, hc]
  · simp [store_new_messages]

/-- C10 (witness): one unclassifiable element yields `(false, [])`, the
empty batch yields `(true, [])`. -/
theorem store_new_messages_unclassifiable_false_witness :
    store_new_messages "mem-1" "default-user" "default-session"
        [RawMessage.otherMsg] (some "u1") (some "s1") true = (false, []) ∧
    store_new_messages "mem-1" "default-user" "default-session"
        ([] : List RawMessage) (some "u1") (some "s1") true = (true, []) := by
  constructor
  · exact (store_new_messages_unclassifiable_false "mem-1" "default-user"
      "default-session" [RawMessage.otherMsg] (some "u1") (some "s1") true).1
      (by decide) (by decide)
  · exact (store_new_messages_unclassifiable_false "mem-1" "default-user"
      "default-session" [] (some "u1") (some "s1") true).2

/-- C4: the `"ROLE: text"` lines of the conversation block are the store's
turns in reversed (oldest-first) order, each turn's messages flattened in
their given order; for a nonempty turn list the rendered block is exactly
those lines joined by newlines (`none` models a failed fetch, which
yields the empty block). -/
theorem conversation_context_lines_oldest_first (convs : List Turn) :
    conversationContextLines convs
      = ((convs.map fun t => List.map turnMessageLine t).reverse).flatten ∧
    load_conversation_context (some convs)
      = (if convs = [] then ""
         else String.intercalate "\n"
           (((convs.map fun t => List.map turnMessageLine t).reverse).flatten)) ∧
    load_conversation_context none = "" := by
  have hlines : conversationContextLines convs
      = ((convs.map fun t => List.map turnMessageLine t).reverse).flatten := by
    rw [conversationContextLines, List.flatMap_def, List.map_reverse]
    rfl
  refine ⟨hlines, ?_, rfl⟩
  show (if convs = [] then ""
        else String.intercalate "\n" (conversationContextLines convs)) = _
  rw [hlines]

/-! ## A process-lifetime run of `get_memory_context` calls (for the
at-most-once history-load invariant) -/

/-- The arguments and store-oracle answers of one `get_memory_context`
call. -/
structure CallInput where
  user_input : String
  actor_arg : Option String
  session_arg : Option String
  load_conv_flag : Bool
  retrieve_flag : Bool
  conversations : Option (List Turn)
  relevant : List Memory

/-- The session key a call resolves to. -/
def callKey (dflt_actor dflt_session : String) (c : CallInput) : String :=
  sessionKey (pyOrDefault c.actor_arg dflt_actor)
    (pyOrDefault c.session_arg dflt_session)

/-- One `get_memory_context` call on the current manager state. -/
def applyCall (dflt_actor dflt_session : String) (st : MMState)
    (c : CallInput) : GetContextResult :=
  get_memory_context dflt_actor dflt_session st c.user_input c.actor_arg
    c.session_arg c.load_conv_flag c.retrieve_flag c.conversations c.relevant

/-- Run a list of calls in order, threading the manager state; the trace
records, per call, the resolved session key and whether the store's
recent-turns read was invoked. -/
def runCalls (dflt_actor dflt_session : String) (st : MMState) :
    List CallInput → List (String × Bool)
  | [] => []
  | c :: cs =>
      (callKey dflt_actor dflt_session c,
        (applyCall dflt_actor dflt_session st c).historyFetched)
        :: runCalls dflt_actor dflt_session
            (applyCall dflt_actor dflt_session st c).state cs

/-- How many calls of a trace invoked the recent-turns read for key `k`. -/
def fetchCount (trace : List (String × Bool)) (k : String) : Nat :=
  (trace.filter fun p => p.1 == k && p.2).length

theorem applyCall_fetched (dflt_actor dflt_session : String) (st : MMState)
    (c : CallInput) :
    (applyCall dflt_actor dflt_session st c).historyFetched
      = (c.load_conv_flag &&
          !(st.primedSessions.contains (callKey dflt_actor dflt_session c))) := rfl

theorem applyCall_state (dflt_actor dflt_session : String) (st : MMState)
    (c : CallInput) :
    (applyCall dflt_actor dflt_session st c).state
      = if c.load_conv_flag &&
            !(st.primedSessions.contains (callKey dflt_actor dflt_session c))
        then MMState.mk (callKey dflt_actor dflt_session c :: st.primedSessions)
        else st := by
  unfold applyCall get_memory_context
  split <;> rfl

/-- A primed key stays primed across any call: the flag is never reset. -/
theorem applyCall_preserves_primed (dflt_actor dflt_session : String)
    (st : MMState) (c : CallInput) (k : String)
    (h : st.primedSessions.contains k = true) :
    ((applyCall dflt_actor dflt_session st c).state).primedSessions.contains k
      = true := by
  rw [applyCall_state]
  split
  · simp only [List.contains_cons]
    simp at h ⊢
    exact Or.inr h
  · exact h

/-- A call for an already-primed key never invokes the recent-turns read. -/
theorem applyCall_primed_no_fetch (dflt_actor dflt_session : String)
    (st : MMState) (c : CallInput)
    (h : st.primedSessions.contains (callKey dflt_actor dflt_session c) = true) :
    (applyCall dflt_actor dflt_session st c).historyFetched = false := by
  rw [applyCall_fetched, h]
  simp

/-- A call that fetched history leaves its key primed. -/
theorem applyCall_fetch_primes (dflt_actor dflt_session : String)
    (st : MMState) (c : CallInput)
    (h : (applyCall dflt_actor dflt_session st c).historyFetched = true) :
    ((applyCall dflt_actor dflt_session st c).state).primedSessions.contains
        (callKey dflt_actor dflt_session c) = true := by
  rw [applyCall_fetched] at h
  rw [applyCall_state, if_pos h]
  simp

theorem fetchCount_cons (p : String × Bool) (tl : List (String × Bool))
    (k : String) :
    fetchCount (p :: tl) k
      = (if (p.1 == k) && p.2 then 1 else 0) + fetchCount tl k := by
  rw [fetchCount, fetchCount, List.filter_cons]
  split
  · simp [Nat.add_comm]
  · simp

/-- From a state where `k` is already primed, no later call ever fetches
history for `k`. -/
theorem fetchCount_zero_of_primed (dflt_actor dflt_session : String) :
    ∀ (calls : List CallInput) (st : MMState) (k : String),
      st.primedSessions.contains k = true →
      fetchCount (runCalls dflt_actor dflt_session st calls) k = 0
  | [], _, _, _ => rfl
  | c :: cs, st, k, h => by
      rw [runCalls, fetchCount_cons,
        fetchCount_zero_of_primed dflt_actor dflt_session cs _ k
          (applyCall_preserves_primed dflt_actor dflt_session st c k h)]
      by_cases hk : callKey dflt_actor dflt_session c = k
      · subst hk
        rw [applyCall_primed_no_fetch dflt_actor dflt_session st c h]
        simp
      · simp [hk]

/-- C1: across any sequence of `get_memory_context` calls from any manager
state, the store's recent-turns read is invoked at most once per session
key; an unprimed key with history loading enabled is fetched (and its flag
set) on that first call; a primed key is never fetched again and its flag
is never reset by any call. -/
theorem history_load_at_most_once (dflt_actor dflt_session : String) :
    (∀ (st : MMState) (calls : List CallInput) (k : String),
      fetchCount (runCalls dflt_actor dflt_session st calls) k ≤ 1) ∧
    (∀ (st : MMState) (c : CallInput),
      st.primedSessions.contains (callKey dflt_actor dflt_session c) = false →
      c.load_conv_flag = true →
      (applyCall dflt_actor dflt_session st c).historyFetched = true ∧
      ((applyCall dflt_actor dflt_session st c).state).primedSessions.contains
          (callKey dflt_actor dflt_session c) = true) ∧
    (∀ (st : MMState) (c : CallInput) (k : String),
      st.primedSessions.contains k = true →
      ((applyCall dflt_actor dflt_session st c).state).primedSessions.contains k
        = true ∧
      (k = callKey dflt_actor dflt_session c →
        (applyCall dflt_actor dflt_session st c).historyFetched = false)) := by
  refine ⟨?_, ?_, ?_⟩
  · intro st calls k
    induction calls generalizing st with
    | nil => simp [runCalls, fetchCount]
    | cons c cs ih =>
        rw [runCalls, fetchCount_cons]
        by_cases hcond : ((callKey dflt_actor dflt_session c == k) &&
            (applyCall dflt_actor dflt_session st c).historyFetched) = true
        · rw [if_pos hcond]
          obtain ⟨hbeq, hf⟩ := Bool.and_eq_true .. |>.mp hcond
          have hk : callKey dflt_actor dflt_session c = k := by simpa using hbeq
          have hprimed :=
            applyCall_fetch_primes dflt_actor dflt_session st c hf
          rw [hk] at hprimed
          rw [fetchCount_zero_of_primed dflt_actor dflt_session cs _ k hprimed]
        · rw [if_neg hcond]
          simpa using ih ((applyCall dflt_actor dflt_session st c).state)
  · intro st c h hflag
    have hf : (applyCall dflt_actor dflt_session st c).historyFetched = true := by
      rw [applyCall_fetched, h, hflag]
      rfl
    exact ⟨hf, applyCall_fetch_primes dflt_actor dflt_session st c hf⟩
  · intro st c k h
    refine ⟨applyCall_preserves_primed dflt_actor dflt_session st c k h, ?_⟩
    intro hk
    subst hk
    exact applyCall_primed_no_fetch dflt_actor dflt_session st c h

/-- C1 (witness): two sequential `getContext` calls for `u1:s1` with
history loading enabled, from a fresh process — the recent-turns read
count for that key is at most one, and on the first call it is actually
invoked while the key gets primed. -/
theorem history_load_at_most_once_witness :
    fetchCount
        (runCalls "default-user" "default-session" ⟨[]⟩
          [⟨"hi", some "u1", some "s1", true, true, some [], []⟩,
           ⟨"hi again", some "u1", some "s1", true, true, some [], []⟩])
        "u1:s1" ≤ 1 ∧
    (applyCall "default-user" "default-session" ⟨[]⟩
        ⟨"hi", some "u1", some "s1", true, true, some [], []⟩).historyFetched
      = true := by
  constructor
  · exact (history_load_at_most_once "default-user" "default-session").1 ⟨[]⟩
      [⟨"hi", some "u1", some "s1", true, true, some [], []⟩,
       ⟨"hi again", some "u1", some "s1", true, true, some [], []⟩] "u1:s1"
  · exact ((history_load_at_most_once "default-user" "default-session").2.1 ⟨[]⟩
      ⟨"hi", some "u1", some "s1", true, true, some [], []⟩
      (by decide) (by decide)).1

end AgentCoreMemory
